import Mathlib

/-!
# web-console: the single-connection streaming container

A shallow embedding of `server/container.go` (package `server`) and of the
`bytes.Buffer` source used by `example/main.go`.

The Go program keeps one global `Container` (connection, reader, reader
factory) and runs, per websocket connection, a `writer` goroutine whose loop
reacts to two tickers: a flush tick drains `Container.Reader` into
`Container.Conn` through `readData`, a ping tick writes a ping control frame.

Modelling conventions

* A Go `string` / `[]byte` is a list of bytes.
* A Go `error` is either the package sentinel `ErrNoReader` (compared by
  identity in `writer`) or any other error value, of which only the text
  returned by `Error()` is observable.
* A websocket connection is an identifier.  What the transport answers to the
  calls made on one tick (`NextWriter`, the writes of `io.Copy`, `Close`,
  `WriteMessage`) is an explicit input of that tick; transport errors come from
  `gorilla/websocket` and so are never the sentinel `ErrNoReader`.
* Everything the program does on its connections is appended to a trace, the
  message writers it leaves open included.  What the peers of the connections
  read is computed from the trace (`transport`): when a message is begun on a
  connection (`NextWriter`, `WriteMessage`), the library first completes the
  message of the writer left open on that connection.
* Deadlines are not modelled: a timeout is one of the transport errors.
-/

namespace WebConsole

/-- A Go byte slice or string. -/
abbrev Bytes := List UInt8

/-- A `*websocket.Conn`, by identity. -/
abbrev ConnId := Nat

/-- The text of `ErrNoReader`, `"no reader"`. -/
def noReaderText : Bytes := [110, 111, 32, 114, 101, 97, 100, 101, 114]

/-- Go `error` values: the sentinel `ErrNoReader = errors.New("no reader")`, or any other
error value with the text its `Error()` method returns. -/
inductive GoError where
  | ErrNoReader
  | other (text : Bytes)
deriving DecidableEq, Repr

/-- The method `err.Error()`. -/
def GoError.Error : GoError → Bytes
  | .ErrNoReader => noReaderText
  | .other text => text

/-- An `io.Reader`, the source to drain.

* `buffer unread` is a `*bytes.Buffer` (as in `example/main.go`) holding the bytes written to
  it and not read yet.
* `script outs` is any other reader, described by what the next drains of it by `io.Copy`
  yield: the bytes it hands out and then, on the `Read` call that follows them, `io.EOF`
  (`none`) or an error (`some e`).  Once the script is used up the reader is at end of
  file. -/
inductive Source where
  | buffer (unread : Bytes)
  | script (outs : List (Bytes × Option GoError))
deriving DecidableEq, Repr

/-- `buffer.Write(p)` by a producer goroutine: the bytes are appended to a `bytes.Buffer`. -/
def Source.Write : Source → Bytes → Source
  | .buffer unread, p => .buffer (unread ++ p)
  | .script outs, _ => .script outs

/-- `upgrader.WriteBufferSize`: the number of payload bytes a message writer of the
connection buffers before it has to write a frame to the network. -/
def WriteBufferSize : Nat := 1024

/-- Whether `io.Copy` has to write a frame to the network while it drains the source, which
is the only moment at which a write of the copy can fail.

For a `bytes.Buffer`, `io.Copy` calls `Buffer.WriteTo`, which passes all unread bytes to one
`w.Write`: the message writer only buffers them unless they exceed its buffer.  For another
reader `io.Copy` calls the `ReadFrom` of the message writer, which reads into the buffer and
writes a frame each time the buffer is full, before the next `Read`. -/
def Source.flushes : Source → Bool
  | .buffer unread => decide (WriteBufferSize < unread.length)
  | .script [] => false
  | .script ((bs, _) :: _) => decide (WriteBufferSize ≤ bs.length)

/-- Result of `io.Copy(w, r)`. -/
structure CopyResult where
  /-- bytes accepted by the message writer `w` -/
  written : Bytes
  /-- the error returned, `none` for `nil` -/
  err : Option GoError
  /-- the reader after the call -/
  reader : Source
deriving DecidableEq, Repr

/-- `io.Copy(w, r)` where `w` is the message writer of the connection and `write` is the error
(text) with which a write of a frame fails on this tick, if it does.

A `bytes.Buffer` passes all its unread bytes to one `w.Write` and is reset when that
succeeds; a failed `Write` of the message writer reports that no byte was accepted, so the
bytes stay unread.  Another reader is read into the buffer of the message writer; when the
write of the first full buffer fails, the copy stops there: the bytes of that buffer are lost
and the rest of the step stays unread.  Without a failing write the bytes of the step are
accepted and the error of the reader is returned; end of file is not an error. -/
def ioCopy (r : Source) (write : Option Bytes) : CopyResult :=
  match r with
  | .buffer unread =>
    if WriteBufferSize < unread.length then
      match write with
      | none => ⟨unread, none, .buffer []⟩
      | some text => ⟨[], some (.other text), .buffer unread⟩
    else ⟨unread, none, .buffer []⟩
  | .script [] => ⟨[], none, .script []⟩
  | .script ((bs, rerr) :: rest) =>
    if WriteBufferSize ≤ bs.length then
      match write with
      | none => ⟨bs, rerr, .script rest⟩
      | some text =>
        ⟨[], some (.other text), .script ((bs.drop WriteBufferSize, rerr) :: rest)⟩
    else ⟨bs, rerr, .script rest⟩

/-- `websocket.TextMessage` and `websocket.PingMessage`. -/
inductive MessageType where
  | TextMessage
  | PingMessage
deriving DecidableEq, Repr

/-- What the program did on a connection.

* `message conn payload`: a text message opened by `ws.NextWriter(TextMessage)` was filled
  with `payload` and completed by `w.Close()`, which flushes the complete message to the
  network, also when nothing was written to it.
* `writeMessage conn t payload result`: the call `ws.WriteMessage(t, payload)` and the error
  it returned (`none`: the frame was written).
* `close conn`: `ws.Close()`.
* `nextWriterFailed conn text`: `ws.NextWriter(TextMessage)` returned an error in `readData`.
* `copyFailed conn text`: the message was opened and a write of `io.Copy` failed; the library
  ends a message writer whose write failed.
* `leftOpen conn written`: the message was opened and `io.Copy` returned the error of the
  reader; `readData` returns without `w.Close()`, so the message writer stays open on the
  connection, holding the bytes `written` copied before the error.
* `closeFailed conn text`: the message was opened and filled and `w.Close()` failed. -/
inductive Event where
  | message (conn : ConnId) (payload : Bytes)
  | writeMessage (conn : ConnId) (t : MessageType) (payload : Bytes) (result : Option Bytes)
  | close (conn : ConnId)
  | nextWriterFailed (conn : ConnId) (text : Bytes)
  | copyFailed (conn : ConnId) (text : Bytes)
  | leftOpen (conn : ConnId) (written : Bytes)
  | closeFailed (conn : ConnId) (text : Bytes)
deriving DecidableEq, Repr

/-- What the transport answers on one flush tick: the error text, if any, returned by
`ws.NextWriter`, by the write inside `io.Copy`, by `w.Close()` (all in `readData`) and by
`ws.WriteMessage(websocket.TextMessage, errString)` (in `writer`). -/
structure FlushEnv where
  nextWriter : Option Bytes
  write : Option Bytes
  close : Option Bytes
  errWrite : Option Bytes
deriving DecidableEq, Repr

/-- The transport that accepts every write. -/
def FlushEnv.ok : FlushEnv := ⟨none, none, none, none⟩

/-- What a returning call of `readData` leaves behind: the error returned, the reader after
the call and the events on the connection. -/
structure ReadDataResult where
  err : Option GoError
  reader : Option Source
  events : List Event
deriving DecidableEq, Repr

/-- `readData(r, ws)`.  `none` is the run-time panic of calling `NextWriter` on a nil
`*websocket.Conn`.

The early returns after `NextWriter` leave the message unfinished.  When `io.Copy`
returned the error of the reader the message writer is still open (`leftOpen`); when a write
of the copy or `w.Close()` failed the library has ended it. -/
def readData (r : Option Source) (ws : Option ConnId) (env : FlushEnv) :
    Option ReadDataResult :=
  match r with
  | none => some ⟨some .ErrNoReader, none, []⟩
  | some rd =>
    match ws with
    | none => none
    | some conn =>
      match env.nextWriter with
      | some text => some ⟨some (.other text), some rd, [.nextWriterFailed conn text]⟩
      | none =>
        let c := ioCopy rd env.write
        match c.err with
        | some e =>
          if rd.flushes = true ∧ env.write ≠ none then
            some ⟨some e, some c.reader, [.copyFailed conn e.Error]⟩
          else some ⟨some e, some c.reader, [.leftOpen conn c.written]⟩
        | none =>
          match env.close with
          | some text => some ⟨some (.other text), some c.reader, [.closeFailed conn text]⟩
          | none => some ⟨none, some c.reader, [.message conn c.written]⟩

/-- The struct `WebSocketContainer` (the mutex is not modelled).  `handleAddReader` is a Go
function value, `none` for nil; its argument is the number of times it was called before, so
that it may return a different reader at every call. -/
structure WebSocketContainer where
  Conn : Option ConnId
  Reader : Option Source
  handleAddReader : Option (Nat → Option Source)

/-- `New(reader, handle)`: the new value of the global `Container`. -/
def New (reader : Option Source) (handle : Option (Nat → Option Source)) :
    WebSocketContainer :=
  { Conn := none, Reader := reader, handleAddReader := handle }

/-- `c.connect(ws)`. -/
def WebSocketContainer.connect (c : WebSocketContainer) (ws : ConnId) : WebSocketContainer :=
  { c with Conn := some ws }

/-- `c.newReader(reader)`. -/
def WebSocketContainer.newReader (c : WebSocketContainer) (reader : Option Source) :
    WebSocketContainer :=
  { c with Reader := reader }

/-- Where the loop of `writer` stands: still running, left by `return`, or ended by a panic
(the explicit one for a missing factory, or the nil connection dereferenced in `readData`). -/
inductive Status where
  | running
  | returned
  | panicNoFactory
  | panicNilConn
deriving DecidableEq, Repr

/-- The global `Container` together with one `writer(ws)` goroutine: its argument `ws`, its
local `lastError`, where its loop stands, the trace of what happened on the connections and
the number of calls of `handleAddReader` so far.  The message writers left open on the
connections and the messages their peers have read are determined by the trace
(`State.openWriter`, `State.wire`). -/
structure State where
  Container : WebSocketContainer
  ws : ConnId
  lastError : Bytes
  status : Status
  trace : List Event
  factoryCalls : Nat

/-- The deferred function of `writer`, run when the loop is left by `return` or by a panic:
the tickers are stopped and `ws.Close()` is called. -/
def deferred (s : State) (status : Status) : State :=
  { s with status := status, trace := s.trace ++ [.close s.ws] }

/-- The end of the flush case: `if len(errString) != 0 { ws.WriteMessage(TextMessage,
errString) ... return on error }`. -/
def sendErrString (env : FlushEnv) (s : State) (errString : Bytes) : State :=
  if errString.length ≠ 0 then
    let s := { s with trace := s.trace ++
      [.writeMessage s.ws .TextMessage errString env.errWrite] }
    match env.errWrite with
    | some _ => deferred s .returned
    | none => s
  else s

/-- The case `<-flushTicker.C` of the loop of `writer`. -/
def flushTick (env : FlushEnv) (s : State) : State :=
  match readData s.Container.Reader s.Container.Conn env with
  | none => deferred s .panicNilConn
  | some rd =>
    let s := { s with Container := { s.Container with Reader := rd.reader },
                      trace := s.trace ++ rd.events }
    if rd.err = some .ErrNoReader then
      match s.Container.handleAddReader with
      | none => deferred s .panicNoFactory
      | some handle =>
        let s := { s with Container := s.Container.newReader (handle s.factoryCalls),
                          factoryCalls := s.factoryCalls + 1 }
        sendErrString env s []
    else
      match rd.err with
      | some err =>
        if err.Error ≠ s.lastError then
          sendErrString env { s with lastError := err.Error } err.Error
        else sendErrString env s []
      | none => sendErrString env { s with lastError := [] } []

/-- The case `<-pingTicker.C` of the loop of `writer`; `result` is the error text, if any,
returned by `ws.WriteMessage(websocket.PingMessage, []byte{})`. -/
def pingTick (result : Option Bytes) (s : State) : State :=
  let s := { s with trace := s.trace ++ [.writeMessage s.ws .PingMessage [] result] }
  match result with
  | some _ => deferred s .returned
  | none => s

/-- The two tickers of `writer`. -/
inductive Tick where
  | flush (env : FlushEnv)
  | ping (result : Option Bytes)
deriving DecidableEq, Repr

/-- One iteration of `for { select { ... } }`: a loop that has been left handles no tick. -/
def writerStep (s : State) (t : Tick) : State :=
  match s.status with
  | .running =>
    match t with
    | .flush env => flushTick env s
    | .ping result => pingTick result s
  | _ => s

/-- The beginning of `writer(ws)` on the current `Container`: `lastError := ""`, nothing has
happened yet. -/
def writerStart (c : WebSocketContainer) (ws : ConnId) : State :=
  { Container := c, ws := ws, lastError := [], status := .running, trace := [],
    factoryCalls := 0 }

/-- `writer(ws)` run over the ticks its tickers deliver. -/
def writer (c : WebSocketContainer) (ws : ConnId) (ticks : List Tick) : State :=
  ticks.foldl writerStep (writerStart c ws)

/-- What happens around a running `writer`: one of its ticks, a new connection installed by
`serveWs` through `Container.connect`, or a producer writing to the installed buffer. -/
inductive Action where
  | tick (t : Tick)
  | connect (ws : ConnId)
  | write (p : Bytes)
deriving DecidableEq, Repr

/-- The effect of one action. -/
def act (s : State) (a : Action) : State :=
  match a with
  | .tick t => writerStep s t
  | .connect ws => { s with Container := s.Container.connect ws }
  | .write p =>
    { s with Container := { s.Container with Reader := s.Container.Reader.map (·.Write p) } }

/-- A sequence of actions. -/
def run (s : State) (as : List Action) : State :=
  as.foldl act s

/-- The error returned by `readData` on a flush tick taken in state `s`
(`none`: the call panics, `some none`: it returns `nil`). -/
def drainErr (env : FlushEnv) (s : State) : Option (Option GoError) :=
  (readData s.Container.Reader s.Container.Conn env).map (·.err)

/-- The payloads of the text messages completed by `readData`, oldest first. -/
def payloads : List Event → List Bytes
  | [] => []
  | .message _ p :: es => p :: payloads es
  | _ :: es => payloads es

/-- The events of the call of `readData` on a flush tick taken in state `s`. -/
def drainEvents (env : FlushEnv) (s : State) : List Event :=
  match readData s.Container.Reader s.Container.Conn env with
  | some rd => rd.events
  | none => []

/-- The error frames written: connection and payload of the calls
`ws.WriteMessage(TextMessage, errString)` that returned `nil`, oldest first. -/
def errorFrames : List Event → List (ConnId × Bytes)
  | [] => []
  | .writeMessage conn .TextMessage p none :: es => (conn, p) :: errorFrames es
  | _ :: es => errorFrames es

/-- A message as the peer of a connection reads it. -/
structure Delivered where
  conn : ConnId
  t : MessageType
  payload : Bytes
deriving DecidableEq, Repr

/-- The connections as the library keeps them: per connection the message writer that is
open (`c.writer`, with the bytes it holds), and the messages delivered to the peers so far,
oldest first. -/
structure Transport where
  writer : ConnId → Option Bytes
  wire : List Delivered

/-- The message of the writer left open on `conn`, as the peer will read it once the library
completes it. -/
def Transport.pending (tr : Transport) (conn : ConnId) : List Delivered :=
  match tr.writer conn with
  | some written => [⟨conn, .TextMessage, written⟩]
  | none => []

/-- The beginning of a message on `conn` (in `NextWriter` and in `WriteMessage`): the library
closes the writer left open on `conn`, which completes its message.  `ok` tells whether the
call that begins the message succeeds; when it fails nothing reaches the peer (write errors
of a connection are permanent in the library). -/
def Transport.beginMessage (tr : Transport) (conn : ConnId) (ok : Bool) : Transport :=
  { writer := fun c => if c = conn then none else tr.writer c,
    wire := if ok then tr.wire ++ tr.pending conn else tr.wire }

/-- The effect of one event on the connections. -/
def Transport.step (tr : Transport) : Event → Transport
  | .message conn payload =>
    { tr.beginMessage conn true with
      wire := (tr.beginMessage conn true).wire ++ [⟨conn, .TextMessage, payload⟩] }
  | .writeMessage conn t payload none =>
    { tr.beginMessage conn true with
      wire := (tr.beginMessage conn true).wire ++ [⟨conn, t, payload⟩] }
  | .writeMessage conn _ _ (some _) => tr.beginMessage conn false
  | .close conn => tr.beginMessage conn false
  | .nextWriterFailed conn _ => tr.beginMessage conn false
  | .copyFailed conn _ => tr.beginMessage conn true
  | .leftOpen conn written =>
    { writer := fun c => if c = conn then some written else tr.writer c,
      wire := (tr.beginMessage conn true).wire }
  | .closeFailed conn _ => tr.beginMessage conn true

/-- The connections after a trace, starting with no open writer and nothing delivered. -/
def transport (trace : List Event) : Transport :=
  trace.foldl Transport.step ⟨fun _ => none, []⟩

/-- The messages the peers have read so far, oldest first. -/
def State.wire (s : State) : List Delivered :=
  (transport s.trace).wire

/-- The open-writer component of the state: the bytes held by the message writer that
`readData` left open on `conn`, if there is one. -/
def State.openWriter (s : State) (conn : ConnId) : Option Bytes :=
  (transport s.trace).writer conn

/-- The message of the writer left open on `conn`, which the peer reads before the next
message begun on `conn`. -/
def State.pending (s : State) (conn : ConnId) : List Delivered :=
  (transport s.trace).pending conn

/-- The transport accepts the message of `readData` on this tick: `NextWriter`, the write
of `io.Copy` and `Close` all return `nil`. -/
def FlushEnv.accepts (env : FlushEnv) : Bool :=
  env.nextWriter.isNone && env.write.isNone && env.close.isNone

/-- The actions of an interleaving of producer appends and drains accepted by the
transport. -/
def appendOrDrain : Action → Bool
  | .write _ => true
  | .tick (.flush env) => env.accepts
  | _ => false

/-- Specification side of the tail property: all bytes appended by the producer during the
actions, in order. -/
def appended (as : List Action) : Bytes :=
  as.foldl (fun acc a => match a with
    | .write p => acc ++ p
    | _ => acc) []

/-- Specification side of the tail property: the bytes appended since the last flush tick
(since the beginning when there was none). -/
def sinceLastDrain (as : List Action) : Bytes :=
  as.foldl (fun acc a => match a with
    | .write p => acc ++ p
    | .tick (.flush _) => []
    | _ => acc) []

/-! ### Sources used in the examples -/

/-- A reader whose first two drains fail with an error of empty text (`errors.New("")`) and
whose third drain fails with an error of text `"x"`. -/
def emptyTextSource : Source :=
  .script [([], some (.other [])), ([], some (.other [])), ([], some (.other [120]))]

/-- A reader whose first two drains fail with `"x"` and whose third drain fails with `"y"`. -/
def twiceThenOtherSource : Source :=
  .script [([], some (.other [120])), ([], some (.other [120])), ([], some (.other [121]))]

/-- A reader whose drain fails with `"x"`, then succeeds with no byte, then fails with `"x"`
again. -/
def failOkFailSource : Source :=
  .script [([], some (.other [120])), ([], none), ([], some (.other [120]))]

/-- A source whose `Read` fails with the exported `ErrNoReader`. -/
def sentinelSource : Source := .script [([], some .ErrNoReader)]

/-- A source whose `Read` fails with another error whose text is also `"no reader"`. -/
def sameTextSource : Source := .script [([], some (.other noReaderText))]

/-- A reader whose first two drains fail with `"x"` and which is at end of file then. -/
def twiceThenEofSource : Source :=
  .script [([], some (.other [120])), ([], some (.other [120]))]

/-! ## Shared lemmas -/

/-- A `bytes.Buffer` drained while the transport accepts the writes: all unread bytes are
written and the buffer is empty afterwards. -/
theorem ioCopy_buffer_accepted (unread : Bytes) :
    ioCopy (.buffer unread) none = ⟨unread, none, .buffer []⟩ := by
  simp only [ioCopy]
  split <;> rfl

/-- No call of `readData` writes an error frame. -/
theorem readData_errorFrames {r : Option Source} {ws : Option ConnId} {env : FlushEnv}
    {rd : ReadDataResult} (h : readData r ws env = some rd) : errorFrames rd.events = [] := by
  unfold readData at h
  split at h
  · cases h; rfl
  · split at h
    · cases h
    · split at h
      · cases h; rfl
      · simp only at h
        split at h
        · split at h <;> (cases h; rfl)
        · split at h <;> (cases h; rfl)

/-- The reader after a call of `readData` on an installed source is that source, as it was
or advanced by the drain. -/
theorem readData_reader {src : Source} {ws : Option ConnId} {env : FlushEnv}
    {rd : ReadDataResult} (h : readData (some src) ws env = some rd) :
    rd.reader = some src ∨ rd.reader = some (ioCopy src env.write).reader := by
  unfold readData at h
  simp only at h
  split at h
  · cases h
  · split at h
    · cases h; exact Or.inl rfl
    · split at h
      · split at h <;> (cases h; exact Or.inr rfl)
      · split at h <;> (cases h; exact Or.inr rfl)

/-- A call of `readData` that returns `nil` had a reader and a connection, and completed one
text message on that connection, holding what `io.Copy` wrote. -/
theorem readData_of_ok {r : Option Source} {ws : Option ConnId} {env : FlushEnv}
    {rd : ReadDataResult} (h : readData r ws env = some rd) (he : rd.err = none) :
    ∃ src conn, r = some src ∧ ws = some conn ∧
      rd.reader = some (ioCopy src env.write).reader ∧
      rd.events = [.message conn (ioCopy src env.write).written] := by
  unfold readData at h
  split at h
  · cases h; cases he
  · rename_i src
    split at h
    · cases h
    · rename_i conn
      split at h
      · cases h; cases he
      · simp only at h
        split at h
        · split at h <;> (cases h; cases he)
        · split at h
          · cases h; cases he
          · cases h; exact ⟨src, conn, rfl, rfl, rfl, rfl⟩

/-- The flush tick when `readData` returned an error other than `ErrNoReader`. -/
theorem flushTick_of_err {env : FlushEnv} {s : State} {rd : ReadDataResult} {e : GoError}
    (h : readData s.Container.Reader s.Container.Conn env = some rd)
    (he : rd.err = some e) (hne : e ≠ .ErrNoReader) :
    flushTick env s =
      if e.Error ≠ s.lastError then
        sendErrString env { s with Container := { s.Container with Reader := rd.reader },
                                   trace := s.trace ++ rd.events,
                                   lastError := e.Error } e.Error
      else { s with Container := { s.Container with Reader := rd.reader },
                    trace := s.trace ++ rd.events } := by
  have hne2 : ¬ (some e = some GoError.ErrNoReader) := by
    intro hc; exact hne (Option.some.inj hc)
  simp [flushTick, h, he, hne2, sendErrString]

/-- The flush tick when `readData` returned `nil`. -/
theorem flushTick_of_ok {env : FlushEnv} {s : State} {rd : ReadDataResult}
    (h : readData s.Container.Reader s.Container.Conn env = some rd) (he : rd.err = none) :
    flushTick env s =
      { s with Container := { s.Container with Reader := rd.reader },
               trace := s.trace ++ rd.events, lastError := [] } := by
  simp [flushTick, h, he, sendErrString]

/-- What `drainErr` says about `readData`. -/
theorem readData_of_drainErr {env : FlushEnv} {s : State} {o : Option GoError}
    (h : drainErr env s = some o) :
    ∃ rd, readData s.Container.Reader s.Container.Conn env = some rd ∧ rd.err = o := by
  unfold drainErr at h
  cases hr : readData s.Container.Reader s.Container.Conn env with
  | none => simp [hr] at h
  | some rd => simp [hr] at h; exact ⟨rd, rfl, h⟩

/-- The events of the call of `readData` of a tick contain no error frame. -/
theorem drainEvents_errorFrames (env : FlushEnv) (s : State) :
    errorFrames (drainEvents env s) = [] := by
  unfold drainEvents
  cases hr : readData s.Container.Reader s.Container.Conn env with
  | none => rfl
  | some rd => exact readData_errorFrames hr

/-- The error frames of two traces in sequence. -/
theorem errorFrames_append (xs ys : List Event) :
    errorFrames (xs ++ ys) = errorFrames xs ++ errorFrames ys := by
  induction xs with
  | nil => rfl
  | cons x xs ih =>
    cases x with
    | writeMessage conn t p result =>
      cases t <;> cases result <;> simp [errorFrames, ih]
    | _ => simp [errorFrames, ih]

/-- The connections after two traces in sequence. -/
theorem transport_append (xs ys : List Event) :
    transport (xs ++ ys) = ys.foldl Transport.step (transport xs) := by
  simp [transport, List.foldl_append]

/-- The peers after an accepted `WriteMessage`: the message of the writer left open on the
connection is completed first, then the frame follows. -/
theorem wire_writeMessage (tr : List Event) (c : ConnId) (t : MessageType) (p : Bytes) :
    (transport (tr ++ [.writeMessage c t p none])).wire
      = (transport tr).wire ++ (transport tr).pending c ++ [⟨c, t, p⟩] := by
  simp [transport_append, Transport.step, Transport.beginMessage]

/-- The peers after a message completed by `readData`: the message of the writer left open
on the connection is completed first, then the new message follows. -/
theorem wire_message (tr : List Event) (c : ConnId) (p : Bytes) :
    (transport (tr ++ [.message c p])).wire
      = (transport tr).wire ++ (transport tr).pending c ++ [⟨c, .TextMessage, p⟩] := by
  simp [transport_append, Transport.step, Transport.beginMessage]

/-- When the copy has to write a frame and the write fails, `io.Copy` returns the error of
the write. -/
theorem ioCopy_write_fails {src : Source} (text : Bytes) (h : src.flushes = true) :
    (ioCopy src (some text)).err = some (.other text) := by
  cases src with
  | buffer unread =>
    have h' : WriteBufferSize < unread.length := by simpa [Source.flushes] using h
    simp [ioCopy, h']
  | script outs =>
    cases outs with
    | nil => simp [Source.flushes] at h
    | cons o rest =>
      obtain ⟨bs, rerr⟩ := o
      have h' : WriteBufferSize ≤ bs.length := by simpa [Source.flushes] using h
      simp [ioCopy, h']

/-- A reader other than a `bytes.Buffer` whose step fills the buffer of the message writer,
with the write of the frame failing: the copy stops after that buffer, and the rest of the
step stays unread. -/
theorem ioCopy_script_write_fails (bs : Bytes) (rerr : Option GoError)
    (rest : List (Bytes × Option GoError)) (text : Bytes)
    (h : WriteBufferSize ≤ bs.length) :
    ioCopy (.script ((bs, rerr) :: rest)) (some text)
      = ⟨[], some (.other text), .script ((bs.drop WriteBufferSize, rerr) :: rest)⟩ := by
  simp [ioCopy, h]

/-- A flush tick of a running writer on which `readData` returns an error other than
`ErrNoReader`: the error text becomes `lastError`; after the events of `readData`,
`ws.WriteMessage(TextMessage, text)` is called exactly when the text is new and not empty,
and the loop returns (closing `ws`) exactly when that call fails. -/
theorem flush_of_drain_error {env : FlushEnv} {s : State} {e : GoError}
    (hrun : s.status = .running) (h : drainErr env s = some (some e))
    (hne : e ≠ .ErrNoReader) :
    (writerStep s (.flush env)).lastError = e.Error ∧
    (writerStep s (.flush env)).ws = s.ws ∧
    (writerStep s (.flush env)).factoryCalls = s.factoryCalls ∧
    (writerStep s (.flush env)).Container.Conn = s.Container.Conn ∧
    (writerStep s (.flush env)).trace = s.trace ++ drainEvents env s ++
      (if e.Error ≠ s.lastError ∧ e.Error ≠ [] then
        .writeMessage s.ws .TextMessage e.Error env.errWrite ::
          (if env.errWrite = none then [] else [.close s.ws])
       else []) ∧
    (writerStep s (.flush env)).status =
      (if e.Error ≠ s.lastError ∧ e.Error ≠ [] ∧ env.errWrite ≠ none then .returned
       else .running) := by
  obtain ⟨rd, hrd, herr⟩ := readData_of_drainErr h
  have hev : drainEvents env s = rd.events := by simp [drainEvents, hrd]
  have hstep : writerStep s (.flush env) = flushTick env s := by simp [writerStep, hrun]
  rw [hstep, flushTick_of_err hrd herr hne, hev]
  by_cases h1 : e.Error = s.lastError
  · simp [h1, hrun]
  · by_cases h2 : e.Error = []
    · have h3 : ¬ s.lastError = [] := fun hc => h1 (h2.trans hc.symm)
      simp [h2, h3, sendErrString, hrun]
    · cases hw : env.errWrite with
      | none => simp [h1, h2, sendErrString, hw, hrun]
      | some t => simp [h1, h2, sendErrString, hw, deferred]

/-- A flush tick of a running writer on which `readData` returns `nil`: `lastError` is
cleared, nothing but the completed message is added to the trace, the loop keeps running. -/
theorem flush_of_drain_ok {env : FlushEnv} {s : State}
    (hrun : s.status = .running) (h : drainErr env s = some none) :
    ∃ src conn, s.Container.Reader = some src ∧ s.Container.Conn = some conn ∧
      writerStep s (.flush env) =
        { s with Container := { s.Container with Reader := some (ioCopy src env.write).reader },
                 trace := s.trace ++ [.message conn (ioCopy src env.write).written],
                 lastError := [] } := by
  obtain ⟨rd, hrd, herr⟩ := readData_of_drainErr h
  obtain ⟨src, conn, hsrc, hconn, hreader, hev⟩ := readData_of_ok hrd herr
  refine ⟨src, conn, hsrc, hconn, ?_⟩
  have hstep : writerStep s (.flush env) = flushTick env s := by simp [writerStep, hrun]
  rw [hstep, flushTick_of_ok hrd herr, hreader, hev]

/-- A flush tick of a running writer on which `readData` returns `ErrNoReader`: after the
events of `readData` nothing happens on a connection but the deferred close when the factory
is missing; otherwise the factory is called once and its result installed. -/
theorem flush_of_ErrNoReader {env : FlushEnv} {s : State}
    (hrun : s.status = .running) (h : drainErr env s = some (some .ErrNoReader)) :
    (s.Container.handleAddReader = none →
      (writerStep s (.flush env)).status = .panicNoFactory ∧
      (writerStep s (.flush env)).trace = s.trace ++ drainEvents env s ++ [.close s.ws] ∧
      (writerStep s (.flush env)).factoryCalls = s.factoryCalls) ∧
    (∀ handle, s.Container.handleAddReader = some handle →
      writerStep s (.flush env) =
        { s with Container := { s.Container with Reader := handle s.factoryCalls },
                 trace := s.trace ++ drainEvents env s,
                 factoryCalls := s.factoryCalls + 1 }) := by
  obtain ⟨rd, hrd, herr⟩ := readData_of_drainErr h
  have hev : drainEvents env s = rd.events := by simp [drainEvents, hrd]
  have hstep : writerStep s (.flush env) = flushTick env s := by simp [writerStep, hrun]
  rw [hstep, hev]
  constructor
  · intro hnone
    simp [flushTick, hrd, herr, hnone, deferred]
  · intro handle hsome
    simp [flushTick, hrd, herr, hsome, sendErrString, WebSocketContainer.newReader]

/-- No tick changes the connection `writer` was started for. -/
theorem writerStep_ws (s : State) (t : Tick) : (writerStep s t).ws = s.ws := by
  unfold writerStep
  split
  · cases t with
    | flush env =>
      simp only [flushTick, sendErrString, deferred]
      repeat' split
      all_goals rfl
    | ping result =>
      simp only [pingTick, deferred]
      split <;> rfl
  · rfl

/-- What a ping tick of a running writer adds to the trace. -/
theorem ping_trace {s : State} (result : Option Bytes) (hrun : s.status = .running) :
    (writerStep s (.ping result)).trace
      = s.trace ++ .writeMessage s.ws .PingMessage [] result ::
          (if result = none then [] else [.close s.ws]) := by
  cases result with
  | none => simp [writerStep, hrun, pingTick]
  | some text => simp [writerStep, hrun, pingTick, deferred]

/-- No action changes the connection `writer` was started for. -/
theorem run_ws (as : List Action) (s : State) : (run s as).ws = s.ws := by
  induction as generalizing s with
  | nil => rfl
  | cons a as ih =>
    have h : (act s a).ws = s.ws := by
      cases a with
      | tick t => exact writerStep_ws s t
      | connect ws => rfl
      | write p => rfl
    show (run (act s a) as).ws = s.ws
    rw [ih, h]

/-- When `readData` returns `ErrNoReader`, either no reader was passed or the drain of the
reader itself failed with the value `ErrNoReader`. -/
theorem readData_ErrNoReader {r : Option Source} {ws : Option ConnId} {env : FlushEnv}
    {rd : ReadDataResult} (h : readData r ws env = some rd)
    (he : rd.err = some .ErrNoReader) :
    r = none ∨ ∃ src, r = some src ∧ (ioCopy src env.write).err = some .ErrNoReader := by
  unfold readData at h
  split at h
  · exact Or.inl rfl
  · rename_i src
    right
    split at h
    · cases h
    · split at h
      · cases h; cases he
      · simp only at h
        split at h
        · rename_i e hc
          split at h
          · cases h
            simp only at he
            exact ⟨src, rfl, hc.trans he⟩
          · cases h
            simp only at he
            exact ⟨src, rfl, hc.trans he⟩
        · split at h
          · cases h; cases he
          · cases h; cases he

/-- The state reached by appends and accepted drains from a fresh writer on an empty
`bytes.Buffer`: the loop runs, the buffer holds exactly the bytes appended since the last
drain, and the payloads written so far followed by those bytes are all the bytes appended. -/
theorem buffer_invariant (conn ws : ConnId) (as : List Action)
    (has : ∀ a ∈ as, appendOrDrain a = true) :
    (run (writerStart ((New (some (.buffer [])) none).connect conn) ws) as).status = .running ∧
    (run (writerStart ((New (some (.buffer [])) none).connect conn) ws) as).Container.Conn
      = some conn ∧
    (run (writerStart ((New (some (.buffer [])) none).connect conn) ws) as).Container.Reader
      = some (.buffer (sinceLastDrain as)) ∧
    (payloads (run (writerStart ((New (some (.buffer [])) none).connect conn) ws) as).trace).flatten
      ++ sinceLastDrain as = appended as := by
  induction as using List.reverseRecOn with
  | nil => exact ⟨rfl, rfl, rfl, rfl⟩
  | append_singleton as a ih =>
    have has' : ∀ b ∈ as, appendOrDrain b = true := fun b hb =>
      has b (List.mem_append_left _ hb)
    have ha : appendOrDrain a = true := has a (by simp)
    obtain ⟨hrun, hconn, hreader, hjoin⟩ := ih has'
    have hrun_app : run (writerStart ((New (some (.buffer [])) none).connect conn) ws)
        (as ++ [a]) = act (run (writerStart ((New (some (.buffer [])) none).connect conn) ws)
          as) a := by simp [run, List.foldl_append]
    rw [hrun_app]
    generalize run (writerStart ((New (some (.buffer [])) none).connect conn) ws) as = s
      at hrun hconn hreader hjoin
    cases a with
    | connect c => simp [appendOrDrain] at ha
    | write p =>
      have h1 : sinceLastDrain (as ++ [.write p]) = sinceLastDrain as ++ p := by
        simp [sinceLastDrain, List.foldl_append]
      have h2 : appended (as ++ [.write p]) = appended as ++ p := by
        simp [appended, List.foldl_append]
      rw [h1, h2, ← hjoin]
      simp [act, hrun, hconn, hreader, Source.Write]
    | tick t =>
      cases t with
      | ping r => simp [appendOrDrain] at ha
      | flush env =>
        have h1 : sinceLastDrain (as ++ [.tick (.flush env)]) = [] := by
          simp [sinceLastDrain, List.foldl_append]
        have h2 : appended (as ++ [.tick (.flush env)]) = appended as := by
          simp [appended, List.foldl_append]
        simp only [appendOrDrain, FlushEnv.accepts, Bool.and_eq_true,
          Option.isNone_iff_eq_none] at ha
        obtain ⟨⟨hnw, hwr⟩, hcl⟩ := ha
        rw [h1, h2, ← hjoin]
        have hpay : ∀ (l : List Event) (c : ConnId) (p : Bytes),
            payloads (l ++ [.message c p]) = payloads l ++ [p] := by
          intro l c p
          induction l with
          | nil => rfl
          | cons e es ihl => cases e <;> simp [payloads, ihl]
        simp [act, writerStep, hrun, flushTick, readData, hconn, hreader, hnw, hwr, hcl,
          ioCopy_buffer_accepted, sendErrString, hpay]

/-! ## The claims -/

/-- C1 as stated fails for an error with empty text: the three drains fail with `e`, `e`,
`e'` where the texts differ, yet the first tick writes no error frame and delivers nothing
to the peer, and the three ticks write one error frame in all (the peer reads, before it, the
three empty messages of the writers that the failing drains left open). -/
theorem dedup_fails_for_empty_error_text :
    (GoError.other [120]).Error ≠ (GoError.other []).Error ∧
    drainErr .ok (writer ((New (some emptyTextSource) none).connect 0) 0 [])
      = some (some (.other [])) ∧
    drainErr .ok (writer ((New (some emptyTextSource) none).connect 0) 0 [.flush .ok])
      = some (some (.other [])) ∧
    drainErr .ok (writer ((New (some emptyTextSource) none).connect 0) 0
      [.flush .ok, .flush .ok]) = some (some (.other [120])) ∧
    errorFrames (writer ((New (some emptyTextSource) none).connect 0) 0 [.flush .ok]).trace
      = [] ∧
    (writer ((New (some emptyTextSource) none).connect 0) 0 [.flush .ok]).wire = [] ∧
    errorFrames (writer ((New (some emptyTextSource) none).connect 0) 0
      [.flush .ok, .flush .ok, .flush .ok]).trace = [(0, [120])] ∧
    (writer ((New (some emptyTextSource) none).connect 0) 0
      [.flush .ok, .flush .ok, .flush .ok]).wire
      = [⟨0, .TextMessage, []⟩, ⟨0, .TextMessage, []⟩, ⟨0, .TextMessage, []⟩,
         ⟨0, .TextMessage, [120]⟩] := by
  decide

/-- C1, amended: for drain errors `e`, `e'` other than `ErrNoReader`, both with a text that is
not empty and the texts different, a running writer with empty `lastError` whose next three
flush ticks fail with `e`, `e`, `e'` (the error-frame writes succeeding) writes exactly two
error frames, both on `ws`: after the events of `readData` the first tick writes the frame
with the text of `e`, the second tick writes nothing, the third tick writes the frame with
the text of `e'`; the loop is still running.  When the three drains fail in the reader, on
the connection of the writer with no writer open before, each leaves its message writer open
and the peer reads five text messages: the bytes of the first drain, the text of `e`, the
bytes of the second drain, the bytes of the third drain, the text of `e'`. -/
theorem dedup_of_repeated_error (s : State) (env1 env2 env3 : FlushEnv) (e e' : GoError)
    (hrun : s.status = .running) (hlast : s.lastError = [])
    (he : e ≠ .ErrNoReader) (het : e.Error ≠ [])
    (he' : e' ≠ .ErrNoReader) (het' : e'.Error ≠ [])
    (hdiff : e'.Error ≠ e.Error)
    (h1 : drainErr env1 s = some (some e)) (hw1 : env1.errWrite = none)
    (h2 : drainErr env2 (writerStep s (.flush env1)) = some (some e))
    (h3 : drainErr env3 (writerStep (writerStep s (.flush env1)) (.flush env2))
      = some (some e'))
    (hw3 : env3.errWrite = none) :
    (writerStep s (.flush env1)).trace
      = s.trace ++ drainEvents env1 s ++ [.writeMessage s.ws .TextMessage e.Error none] ∧
    (writerStep (writerStep s (.flush env1)) (.flush env2)).trace
      = (writerStep s (.flush env1)).trace ++ drainEvents env2 (writerStep s (.flush env1)) ∧
    (writerStep (writerStep (writerStep s (.flush env1)) (.flush env2)) (.flush env3)).trace
      = (writerStep (writerStep s (.flush env1)) (.flush env2)).trace
          ++ drainEvents env3 (writerStep (writerStep s (.flush env1)) (.flush env2))
          ++ [.writeMessage s.ws .TextMessage e'.Error none] ∧
    (writerStep (writerStep (writerStep s (.flush env1)) (.flush env2)) (.flush env3)).status
      = .running ∧
    errorFrames (writerStep s (.flush env1)).trace
      = errorFrames s.trace ++ [(s.ws, e.Error)] ∧
    errorFrames (writerStep (writerStep s (.flush env1)) (.flush env2)).trace
      = errorFrames s.trace ++ [(s.ws, e.Error)] ∧
    errorFrames
      (writerStep (writerStep (writerStep s (.flush env1)) (.flush env2)) (.flush env3)).trace
      = errorFrames s.trace ++ [(s.ws, e.Error), (s.ws, e'.Error)] ∧
    (∀ b1 b2 b3, s.openWriter s.ws = none →
      drainEvents env1 s = [.leftOpen s.ws b1] →
      drainEvents env2 (writerStep s (.flush env1)) = [.leftOpen s.ws b2] →
      drainEvents env3 (writerStep (writerStep s (.flush env1)) (.flush env2))
        = [.leftOpen s.ws b3] →
      (writerStep (writerStep (writerStep s (.flush env1)) (.flush env2)) (.flush env3)).wire
        = s.wire ++ [⟨s.ws, .TextMessage, b1⟩, ⟨s.ws, .TextMessage, e.Error⟩,
            ⟨s.ws, .TextMessage, b2⟩, ⟨s.ws, .TextMessage, b3⟩,
            ⟨s.ws, .TextMessage, e'.Error⟩]) := by
  obtain ⟨l1, w1, -, -, t1, r1⟩ := flush_of_drain_error hrun h1 he
  have hel : e.Error ≠ s.lastError := by rw [hlast]; exact het
  simp only [hw1, hel, het, ne_eq, not_false_eq_true, and_self, not_true_eq_false,
    and_false, if_true, if_false] at t1 r1
  obtain ⟨l2, w2, -, -, t2, r2⟩ := flush_of_drain_error r1 h2 he
  simp only [l1, ne_eq, not_true_eq_false, false_and, if_false, List.append_nil] at t2 r2
  obtain ⟨-, -, -, -, t3, r3⟩ := flush_of_drain_error r2 h3 he'
  simp only [l2, hw3, hdiff, het', ne_eq, not_false_eq_true, and_self, not_true_eq_false,
    and_false, if_true, if_false, w2, w1] at t3 r3
  have f1 : errorFrames (writerStep s (.flush env1)).trace
      = errorFrames s.trace ++ [(s.ws, e.Error)] := by
    rw [t1]
    simp [errorFrames_append, drainEvents_errorFrames, errorFrames]
  have f2 : errorFrames (writerStep (writerStep s (.flush env1)) (.flush env2)).trace
      = errorFrames s.trace ++ [(s.ws, e.Error)] := by
    rw [t2, errorFrames_append, drainEvents_errorFrames, f1, List.append_nil]
  have f3 : errorFrames
      (writerStep (writerStep (writerStep s (.flush env1)) (.flush env2)) (.flush env3)).trace
      = errorFrames s.trace ++ [(s.ws, e.Error), (s.ws, e'.Error)] := by
    rw [t3]
    simp [errorFrames_append, drainEvents_errorFrames, errorFrames, f2]
  refine ⟨t1, t2, t3, r3, f1, f2, f3, ?_⟩
  intro b1 b2 b3 hopen d1 d2 d3
  have hopen' : (transport s.trace).writer s.ws = none := hopen
  unfold State.wire
  rw [t3, t2, t1, d1, d2, d3]
  simp [transport_append, Transport.step, Transport.beginMessage, Transport.pending, hopen']

/-- C1, amended, at a fresh writer on `twiceThenOtherSource`: the peer reads an empty
message, `"x"`, two empty messages and `"y"`; `"x"` and `"y"` are the two error frames. -/
theorem dedup_of_repeated_error_witness :
    (writer ((New (some twiceThenOtherSource) none).connect 0) 0
      [.flush .ok, .flush .ok, .flush .ok]).wire
      = [⟨0, .TextMessage, []⟩, ⟨0, .TextMessage, [120]⟩, ⟨0, .TextMessage, []⟩,
         ⟨0, .TextMessage, []⟩, ⟨0, .TextMessage, [121]⟩] :=
  (dedup_of_repeated_error (writerStart ((New (some twiceThenOtherSource) none).connect 0) 0)
    .ok .ok .ok (.other [120]) (.other [121]) rfl rfl (by decide) (by decide) (by decide)
    (by decide) (by decide) (by decide) rfl (by decide) (by decide) rfl).2.2.2.2.2.2.2
    [] [] [] (by decide) (by decide) (by decide) (by decide)

/-- C2: if a flush tick of a running writer fails with `e` and, after the events of
`readData`, the frame with the text of `e` is written, and on a later flush tick (after any
actions that leave the loop running) `readData` returns `nil`, whatever the number of bytes
copied, then `lastError` is empty after that tick and the loop still runs; and if the
following flush tick fails with the same `e`, it calls `ws.WriteMessage(TextMessage, text of
e)` again after the events of `readData`: when the transport accepts the frame, the text of
`e` is a second time the last message the peer of `ws` has read, and the loop returns and
closes `ws` when it does not. -/
theorem success_resets_dedup (s s2 : State) (env1 env2 env3 : FlushEnv) (mid : List Action)
    (e : GoError) (hrun : s.status = .running)
    (h1 : drainErr env1 s = some (some e))
    (hsent : (writerStep s (.flush env1)).trace
      = s.trace ++ drainEvents env1 s ++ [.writeMessage s.ws .TextMessage e.Error none])
    (hs2 : s2 = run (writerStep s (.flush env1)) mid)
    (hrun2 : s2.status = .running)
    (h2 : drainErr env2 s2 = some none)
    (h3 : drainErr env3 (writerStep s2 (.flush env2)) = some (some e)) :
    (writerStep s (.flush env1)).wire.getLast? = some ⟨s.ws, .TextMessage, e.Error⟩ ∧
    (writerStep s2 (.flush env2)).lastError = [] ∧
    (writerStep s2 (.flush env2)).status = .running ∧
    (writerStep (writerStep s2 (.flush env2)) (.flush env3)).trace
      = (writerStep s2 (.flush env2)).trace ++ drainEvents env3 (writerStep s2 (.flush env2))
          ++ .writeMessage s.ws .TextMessage e.Error env3.errWrite ::
            (if env3.errWrite = none then [] else [.close s.ws]) ∧
    (env3.errWrite = none →
      (writerStep (writerStep s2 (.flush env2)) (.flush env3)).wire.getLast?
        = some ⟨s.ws, .TextMessage, e.Error⟩) ∧
    (env3.errWrite ≠ none →
      (writerStep (writerStep s2 (.flush env2)) (.flush env3)).status = .returned) := by
  have hne : e ≠ .ErrNoReader := by
    intro hc
    subst hc
    obtain ⟨hn, hs⟩ := flush_of_ErrNoReader hrun h1
    cases hh : s.Container.handleAddReader with
    | none =>
      have := (hn hh).2.1
      rw [this] at hsent
      simp at hsent
    | some handle =>
      have := hs handle hh
      rw [this] at hsent
      simp at hsent
  have het : e.Error ≠ [] := by
    intro hc
    have := (flush_of_drain_error hrun h1 hne).2.2.2.2.1
    rw [this] at hsent
    simp [hc] at hsent
  have hws : s2.ws = s.ws := by rw [hs2, run_ws, writerStep_ws]
  obtain ⟨src, conn, -, -, hstep⟩ := flush_of_drain_ok hrun2 h2
  have hl : (writerStep s2 (.flush env2)).lastError = [] := by rw [hstep]
  have hr : (writerStep s2 (.flush env2)).status = .running := by rw [hstep]; exact hrun2
  have hw : (writerStep s2 (.flush env2)).ws = s.ws := by rw [writerStep_ws, hws]
  obtain ⟨-, -, -, -, ht, hst⟩ := flush_of_drain_error hr h3 hne
  rw [hl, hw] at ht
  rw [hl] at hst
  have hcond : e.Error ≠ [] ∧ e.Error ≠ [] := ⟨het, het⟩
  rw [if_pos hcond] at ht
  refine ⟨?_, hl, hr, ht, ?_, ?_⟩
  · unfold State.wire
    rw [hsent, wire_writeMessage, List.getLast?_concat]
  · intro hacc
    unfold State.wire
    rw [ht, hacc, if_pos rfl, wire_writeMessage, List.getLast?_concat]
  · intro hrej
    rw [hst, if_pos ⟨het, het, hrej⟩]

/-- C2, at a fresh writer on `failOkFailSource` with a ping between the first two flush
ticks: the error frame `"x"` is written on the first and on the third flush tick, and the peer
reads an empty message, `"x"`, the ping, two empty messages and `"x"`. -/
theorem success_resets_dedup_witness :
    (writer ((New (some failOkFailSource) none).connect 0) 0
      [.flush .ok, .ping none, .flush .ok, .flush .ok]).trace
      = [.leftOpen 0 [], .writeMessage 0 .TextMessage [120] none,
         .writeMessage 0 .PingMessage [] none, .message 0 [],
         .leftOpen 0 [], .writeMessage 0 .TextMessage [120] none] ∧
    (writer ((New (some failOkFailSource) none).connect 0) 0
      [.flush .ok, .ping none, .flush .ok, .flush .ok]).wire
      = [⟨0, .TextMessage, []⟩, ⟨0, .TextMessage, [120]⟩, ⟨0, .PingMessage, []⟩,
         ⟨0, .TextMessage, []⟩, ⟨0, .TextMessage, []⟩, ⟨0, .TextMessage, [120]⟩] :=
  ⟨((success_resets_dedup (writerStart ((New (some failOkFailSource) none).connect 0) 0)
      (writer ((New (some failOkFailSource) none).connect 0) 0 [.flush .ok, .ping none])
      .ok .ok .ok [.tick (.ping none)] (.other [120]) rfl (by decide) (by decide) rfl rfl
      (by decide) (by decide)).2.2.2.1).trans (by decide),
   by decide⟩

/-- C3: for a container built by `New(nil, nil)`, whatever connection is installed, the first
flush tick of `writer` panics for the missing factory: `readData` returns `ErrNoReader`
without any event on a connection, the trace of the tick holds no frame (only the deferred
`ws.Close()`), and no later tick changes anything. -/
theorem first_tick_without_source_and_factory_panics (conn : Option ConnId) (ws : ConnId)
    (env : FlushEnv) (ticks : List Tick) :
    readData (New none none).Reader conn env = some ⟨some .ErrNoReader, none, []⟩ ∧
    (writer { New none none with Conn := conn } ws [.flush env]).status = .panicNoFactory ∧
    (writer { New none none with Conn := conn } ws [.flush env]).trace = [.close ws] ∧
    writer { New none none with Conn := conn } ws (.flush env :: ticks)
      = writer { New none none with Conn := conn } ws [.flush env] := by
  refine ⟨rfl, rfl, rfl, ?_⟩
  simp only [writer, List.foldl_cons, List.foldl_nil]
  induction ticks with
  | nil => rfl
  | cons t ts ih => simpa [List.foldl_cons] using ih

/-- C4: for a container built by `New(nil, handle)` with a factory, whatever connection is
installed, the first flush tick of `writer` calls `handle` exactly once and installs its
result as `Container.Reader`, leaving `Conn` and `handleAddReader` as they were, with no
event on any connection and the loop running; the next flush tick passes the installed
reader to `readData`, so that when the factory returned a source and the transport accepts
the writes, what `io.Copy` drains from that source is the message written to the installed
connection. -/
theorem factory_fallback_installs_source (handle : Nat → Option Source) (conn ws : ConnId)
    (env1 env2 : FlushEnv) :
    (writer ((New none (some handle)).connect conn) ws [.flush env1]).factoryCalls = 1 ∧
    (writer ((New none (some handle)).connect conn) ws [.flush env1]).Container.Reader
      = handle 0 ∧
    (writer ((New none (some handle)).connect conn) ws [.flush env1]).Container.Conn
      = some conn ∧
    (writer ((New none (some handle)).connect conn) ws [.flush env1]).Container.handleAddReader
      = some handle ∧
    (writer ((New none (some handle)).connect conn) ws [.flush env1]).trace = [] ∧
    (writer ((New none (some handle)).connect conn) ws [.flush env1]).status = .running ∧
    (writer ((New none (some handle)).connect conn) ws [.flush env1]).lastError = [] ∧
    drainErr env2 (writer ((New none (some handle)).connect conn) ws [.flush env1])
      = (readData (handle 0) (some conn) env2).map (·.err) ∧
    (∀ src, handle 0 = some src → env2.nextWriter = none →
      (ioCopy src env2.write).err = none → env2.close = none →
      (writer ((New none (some handle)).connect conn) ws [.flush env1, .flush env2]).trace
        = [.message conn (ioCopy src env2.write).written] ∧
      (writer ((New none (some handle)).connect conn) ws
        [.flush env1, .flush env2]).Container.Reader
        = some (ioCopy src env2.write).reader ∧
      (writer ((New none (some handle)).connect conn) ws
        [.flush env1, .flush env2]).factoryCalls = 1) := by
  refine ⟨rfl, rfl, rfl, rfl, rfl, rfl, rfl, rfl, ?_⟩
  intro src hsrc hnw hcopy hclose
  have hs1 : writer ((New none (some handle)).connect conn) ws [.flush env1]
      = { Container := ⟨some conn, handle 0, some handle⟩, ws := ws, lastError := [],
          status := .running, trace := [], factoryCalls := 1 } := rfl
  have hstep : writer ((New none (some handle)).connect conn) ws [.flush env1, .flush env2]
      = flushTick env2
          (writer ((New none (some handle)).connect conn) ws [.flush env1]) := rfl
  rw [hstep, hs1]
  simp [flushTick, readData, hsrc, hnw, hcopy, hclose, sendErrString]

/-- C4, with a factory returning a buffer that holds `"B"`: the second tick writes `"B"`. -/
theorem factory_fallback_installs_source_witness :
    (writer ((New none (some (fun _ => some (.buffer [66])))).connect 0) 0
      [.flush .ok, .flush .ok]).trace = [.message 0 [66]] :=
  ((factory_fallback_installs_source (fun _ => some (.buffer [66])) 0 0 .ok .ok).2.2.2.2.2.2.2.2
    (.buffer [66]) rfl rfl rfl rfl).1

/-- C5: with an initially empty `bytes.Buffer` as source (as in `example/main.go`), after any
interleaving of producer appends and drains accepted by the transport, one more accepted
drain writes to the installed connection one message holding exactly the bytes appended
since the previous drain, and the payloads of all drains together are exactly all the bytes
appended so far, in order; in particular append `"A"`, drain, append `"B"`, drain writes the
messages `"A"` and `"B"`. -/
theorem drain_is_incremental (conn ws : ConnId) (as : List Action) (env : FlushEnv)
    (has : ∀ a ∈ as, appendOrDrain a = true) (henv : env.accepts = true) :
    (run (writerStart ((New (some (.buffer [])) none).connect conn) ws)
      (as ++ [.tick (.flush env)])).trace
      = (run (writerStart ((New (some (.buffer [])) none).connect conn) ws) as).trace
          ++ [.message conn (sinceLastDrain as)] ∧
    (payloads (run (writerStart ((New (some (.buffer [])) none).connect conn) ws)
      (as ++ [.tick (.flush env)])).trace).flatten = appended as ∧
    (run (writerStart ((New (some (.buffer [])) none).connect conn) ws)
      [.write [65], .tick (.flush env), .write [66], .tick (.flush env)]).trace
      = [.message conn [65], .message conn [66]] := by
  have hscen : (run (writerStart ((New (some (.buffer [])) none).connect conn) ws)
      [.write [65], .tick (.flush env), .write [66], .tick (.flush env)]).trace
      = [.message conn [65], .message conn [66]] := by
    simp only [FlushEnv.accepts, Bool.and_eq_true, Option.isNone_iff_eq_none] at henv
    obtain ⟨⟨hnw, hwr⟩, hcl⟩ := henv
    simp [run, act, writerStep, writerStart, New, WebSocketContainer.connect, Source.Write,
      flushTick, readData, ioCopy, sendErrString, hnw, hwr, hcl]
  have hall : ∀ a ∈ as ++ [.tick (.flush env)], appendOrDrain a = true := by
    intro a ha
    rcases List.mem_append.mp ha with h | h
    · exact has a h
    · simp at h; subst h; exact henv
  obtain ⟨hrun, hconn, hreader, -⟩ := buffer_invariant conn ws as has
  obtain ⟨-, -, -, hjoin⟩ := buffer_invariant conn ws _ hall
  have h1 : sinceLastDrain (as ++ [.tick (.flush env)]) = [] := by
    simp [sinceLastDrain, List.foldl_append]
  have h2 : appended (as ++ [.tick (.flush env)]) = appended as := by
    simp [appended, List.foldl_append]
  rw [h1, h2, List.append_nil] at hjoin
  refine ⟨?_, hjoin, hscen⟩
  have hrun_app : run (writerStart ((New (some (.buffer [])) none).connect conn) ws)
      (as ++ [.tick (.flush env)])
      = act (run (writerStart ((New (some (.buffer [])) none).connect conn) ws) as)
          (.tick (.flush env)) := by simp [run, List.foldl_append]
  rw [hrun_app]
  generalize run (writerStart ((New (some (.buffer [])) none).connect conn) ws) as = s
    at hrun hconn hreader
  simp only [FlushEnv.accepts, Bool.and_eq_true, Option.isNone_iff_eq_none] at henv
  obtain ⟨⟨hnw, hwr⟩, hcl⟩ := henv
  by_cases hemp : sinceLastDrain as = []
  · simp [act, writerStep, hrun, flushTick, readData, hconn, hreader, hnw, hwr, hcl,
      ioCopy, hemp, sendErrString]
  · simp [act, writerStep, hrun, flushTick, readData, hconn, hreader, hnw, hwr, hcl,
      ioCopy, hemp, sendErrString]

/-- C5, on append `"A"`, drain, append `"B"`, drain: the two messages are `"A"` and `"B"`. -/
theorem drain_is_incremental_witness :
    (run (writerStart ((New (some (.buffer [])) none).connect 0) 0)
      [.write [65], .tick (.flush .ok), .write [66], .tick (.flush .ok)]).trace
      = [.message 0 [65], .message 0 [66]] :=
  ((drain_is_incremental 0 0 [.write [65], .tick (.flush .ok), .write [66]] .ok
    (by decide) rfl).1).trans (by decide)

/-- C6 as stated fails: the writer started for connection 1 runs on after connection 2 was
installed; on its flush tick the message is opened and filled on the installed connection
and `w.Close()` fails there with `"x"`, while the error frame is accepted on connection 1.
`readData` returns the transport error, yet the loop keeps running and no connection is
closed: the error text is sent as an error frame, which the peer of connection 1 reads. -/
theorem failed_payload_write_does_not_end_loop :
    drainErr ⟨none, none, some [120], none⟩
      (run (writerStart ((New (some (.buffer [65])) none).connect 1) 1) [.connect 2])
      = some (some (.other [120])) ∧
    (run (writerStart ((New (some (.buffer [65])) none).connect 1) 1)
      [.connect 2, .tick (.flush ⟨none, none, some [120], none⟩)]).status = .running ∧
    (run (writerStart ((New (some (.buffer [65])) none).connect 1) 1)
      [.connect 2, .tick (.flush ⟨none, none, some [120], none⟩)]).trace
      = [.closeFailed 2 [120], .writeMessage 1 .TextMessage [120] none] ∧
    (run (writerStart ((New (some (.buffer [65])) none).connect 1) 1)
      [.connect 2, .tick (.flush ⟨none, none, some [120], none⟩)]).wire
      = [⟨1, .TextMessage, [120]⟩] := by
  decide

/-- C6, amended: on a flush tick of a running writer with a source and a connection
installed, when the write of the flush payload fails with a transport error of text `text`
(`ws.NextWriter` fails, or a write of a frame inside `io.Copy` fails, or `w.Close()` fails),
`readData` returns that error and the failure is not fatal by itself: `text` becomes
`lastError`, and when `text` differs from the former `lastError` and is not empty the writer
calls `ws.WriteMessage(TextMessage, text)` on its own connection.  The loop returns on that
tick, closing `ws` last, exactly when that call is made and fails; when the call is accepted
the peer of `ws` reads `text` and the loop keeps running; when no call is made the loop keeps
running and nothing is written or closed.  A failed ping write makes the loop return and
close `ws`. -/
theorem failed_payload_write_is_reported (s : State) (env : FlushEnv) (src : Source)
    (conn : ConnId) (text : Bytes)
    (hrun : s.status = .running) (hsrc : s.Container.Reader = some src)
    (hconn : s.Container.Conn = some conn)
    (hfail : env.nextWriter = some text ∨
      (env.nextWriter = none ∧ src.flushes = true ∧ env.write = some text) ∨
      (env.nextWriter = none ∧ (ioCopy src env.write).err = none ∧ env.close = some text)) :
    drainErr env s = some (some (.other text)) ∧
    (env.nextWriter = some text → drainEvents env s = [.nextWriterFailed conn text]) ∧
    (env.nextWriter = none → src.flushes = true → env.write = some text →
      drainEvents env s = [.copyFailed conn text]) ∧
    (env.nextWriter = none → (ioCopy src env.write).err = none → env.close = some text →
      drainEvents env s = [.closeFailed conn text]) ∧
    (writerStep s (.flush env)).trace = s.trace ++ drainEvents env s ++
      (if text ≠ s.lastError ∧ text ≠ [] then
        .writeMessage s.ws .TextMessage text env.errWrite ::
          (if env.errWrite = none then [] else [.close s.ws])
       else []) ∧
    (writerStep s (.flush env)).status =
      (if text ≠ s.lastError ∧ text ≠ [] ∧ env.errWrite ≠ none then .returned
       else .running) ∧
    (writerStep s (.flush env)).lastError = text ∧
    (text ≠ s.lastError → text ≠ [] → env.errWrite = none →
      (writerStep s (.flush env)).wire.getLast? = some ⟨s.ws, .TextMessage, text⟩) ∧
    (∀ t, (writerStep s (.ping (some t))).status = .returned ∧
      (writerStep s (.ping (some t))).trace = s.trace ++
        [.writeMessage s.ws .PingMessage [] (some t), .close s.ws]) := by
  have hA : env.nextWriter = some text →
      drainErr env s = some (some (.other text)) ∧
      drainEvents env s = [.nextWriterFailed conn text] := by
    intro h
    simp [drainErr, drainEvents, readData, hsrc, hconn, h]
  have hB : env.nextWriter = none → src.flushes = true → env.write = some text →
      drainErr env s = some (some (.other text)) ∧
      drainEvents env s = [.copyFailed conn text] := by
    intro hnw hfl hw
    have hc := ioCopy_write_fails text hfl
    simp [drainErr, drainEvents, readData, hsrc, hconn, hnw, hw, hc, hfl, GoError.Error]
  have hC : env.nextWriter = none → (ioCopy src env.write).err = none →
      env.close = some text →
      drainErr env s = some (some (.other text)) ∧
      drainEvents env s = [.closeFailed conn text] := by
    intro hnw hc hcl
    simp [drainErr, drainEvents, readData, hsrc, hconn, hnw, hc, hcl]
  have hd : drainErr env s = some (some (.other text)) := by
    rcases hfail with h | ⟨h1, h2, h3⟩ | ⟨h1, h2, h3⟩
    · exact (hA h).1
    · exact (hB h1 h2 h3).1
    · exact (hC h1 h2 h3).1
  have hne : GoError.other text ≠ .ErrNoReader := by intro hc; cases hc
  obtain ⟨hl, -, -, -, ht, hs⟩ := flush_of_drain_error hrun hd hne
  have hE : (GoError.other text).Error = text := rfl
  rw [hE] at hl ht hs
  refine ⟨hd, fun h => (hA h).2, fun h1 h2 h3 => (hB h1 h2 h3).2,
    fun h1 h2 h3 => (hC h1 h2 h3).2, ht, hs, hl, ?_, ?_⟩
  · intro h1 h2 hacc
    unfold State.wire
    rw [ht, if_pos ⟨h1, h2⟩, hacc, if_pos rfl, wire_writeMessage, List.getLast?_concat]
  · intro t
    simp [writerStep, hrun, pingTick, deferred]

/-- C6, amended, at a fresh writer whose `NextWriter` and error-frame write both fail with
`"x"`: the loop returns and closes its connection. -/
theorem failed_payload_write_is_reported_witness :
    (writer ((New (some (.buffer [65])) none).connect 0) 0
      [.flush ⟨some [120], none, none, some [120]⟩]).trace
      = [.nextWriterFailed 0 [120], .writeMessage 0 .TextMessage [120] (some [120]),
         .close 0] ∧
    (writer ((New (some (.buffer [65])) none).connect 0) 0
      [.flush ⟨some [120], none, none, some [120]⟩]).status = .returned :=
  ⟨((failed_payload_write_is_reported
      (writerStart ((New (some (.buffer [65])) none).connect 0) 0)
      ⟨some [120], none, none, some [120]⟩ (.buffer [65]) 0 [120] rfl rfl rfl
      (Or.inl rfl)).2.2.2.2.1).trans (by decide),
   by decide⟩

/-- C7 fails on the code: the writer was started for connection 1, connection 2 is
installed, and the next flush tick drains `"A"` into a message on connection 2, which the
peer of connection 2 reads, while the ping of the same writer still goes to connection 1. -/
theorem stale_writer_forwards_to_new_connection :
    (run (writerStart ((New (some (.buffer [65])) none).connect 1) 1)
      [.connect 2, .tick (.flush .ok), .tick (.ping none)]).ws = 1 ∧
    (run (writerStart ((New (some (.buffer [65])) none).connect 1) 1)
      [.connect 2, .tick (.flush .ok)]).trace = [.message 2 [65]] ∧
    (run (writerStart ((New (some (.buffer [65])) none).connect 1) 1)
      [.connect 2, .tick (.flush .ok)]).wire = [⟨2, .TextMessage, [65]⟩] ∧
    (run (writerStart ((New (some (.buffer [65])) none).connect 1) 1)
      [.connect 2, .tick (.flush .ok), .tick (.ping none)]).wire
      = [⟨2, .TextMessage, [65]⟩, ⟨1, .PingMessage, []⟩] := by
  decide

/-- C8 as stated fails: the installed buffer is empty and the transport accepts everything,
`readData` returns `nil`, and the tick writes one text message with an empty payload to the
connection (`NextWriter` followed by `Close`), which the peer reads. -/
theorem empty_tick_writes_empty_message :
    drainErr .ok (writerStart ((New (some (.buffer [])) none).connect 0) 0) = some none ∧
    (ioCopy (.buffer []) FlushEnv.ok.write).written = [] ∧
    (writer ((New (some (.buffer [])) none).connect 0) 0 [.flush .ok]).trace
      = [.message 0 []] ∧
    (writer ((New (some (.buffer [])) none).connect 0) 0 [.flush .ok]).wire
      = [⟨0, .TextMessage, []⟩] := by
  decide

/-- C8, amended: on a flush tick of a running writer on which the transport accepts the
message and the installed source yields no byte and no error, `readData` returns `nil`, no
error frame is written (no `WriteMessage` call at all) and `lastError` is cleared, but
`readData` still opens and closes a text message on the installed connection: the peer reads
one text message with an empty payload, after the message of the writer that an earlier
failed drain left open on that connection, if there is one. -/
theorem empty_tick_sends_no_error_frame (s : State) (env : FlushEnv) (src : Source)
    (conn : ConnId) (hrun : s.status = .running) (hsrc : s.Container.Reader = some src)
    (hconn : s.Container.Conn = some conn)
    (hnw : env.nextWriter = none) (hcopy : (ioCopy src env.write).err = none)
    (hzero : (ioCopy src env.write).written = []) (hclose : env.close = none) :
    drainErr env s = some none ∧
    (writerStep s (.flush env)).trace = s.trace ++ [.message conn []] ∧
    errorFrames (writerStep s (.flush env)).trace = errorFrames s.trace ∧
    (writerStep s (.flush env)).wire
      = s.wire ++ s.pending conn ++ [⟨conn, .TextMessage, []⟩] ∧
    (s.openWriter conn = none →
      (writerStep s (.flush env)).wire = s.wire ++ [⟨conn, .TextMessage, []⟩]) ∧
    (writerStep s (.flush env)).lastError = [] ∧
    (writerStep s (.flush env)).status = .running := by
  have hd : drainErr env s = some none := by
    simp [drainErr, readData, hsrc, hconn, hnw, hcopy, hclose]
  obtain ⟨src', conn', hsrc', hconn', hstep⟩ := flush_of_drain_ok hrun hd
  have hs : src' = src := by
    rw [hsrc] at hsrc'
    exact (Option.some.inj hsrc').symm
  have hc : conn' = conn := by
    rw [hconn] at hconn'
    exact (Option.some.inj hconn').symm
  subst hs
  subst hc
  have ht : (writerStep s (.flush env)).trace = s.trace ++ [.message conn' []] := by
    rw [hstep, hzero]
  have hwire : (writerStep s (.flush env)).wire
      = s.wire ++ s.pending conn' ++ [⟨conn', .TextMessage, []⟩] := by
    unfold State.wire State.pending
    rw [ht, wire_message]
  refine ⟨hd, ht, ?_, hwire, ?_, ?_, ?_⟩
  · rw [ht, errorFrames_append]
    simp [errorFrames]
  · intro hopen
    have hp : s.pending conn' = [] := by
      unfold State.pending Transport.pending
      have h' : (transport s.trace).writer conn' = none := hopen
      rw [h']
    rw [hwire, hp, List.append_nil]
  · rw [hstep]
  · rw [hstep]; exact hrun

/-- C8, amended, at an empty tick that follows two drains failing with `"x"`: the second
failing drain left its writer open, so the peer reads two empty messages on that tick, after
the empty message and the `"x"` of the first tick. -/
theorem empty_tick_sends_no_error_frame_witness :
    (writer ((New (some twiceThenEofSource) none).connect 0) 0
      [.flush .ok, .flush .ok, .flush .ok]).wire
      = [⟨0, .TextMessage, []⟩, ⟨0, .TextMessage, [120]⟩, ⟨0, .TextMessage, []⟩,
         ⟨0, .TextMessage, []⟩] :=
  ((empty_tick_sends_no_error_frame
    (writer ((New (some twiceThenEofSource) none).connect 0) 0 [.flush .ok, .flush .ok])
    .ok (.script []) 0 (by decide) (by decide) (by decide) rfl (by decide) (by decide)
    rfl).2.2.2.1).trans (by decide)

/-- C9 as stated fails: a source is installed (`Reader` is not nil) and its drain fails with
the exported `ErrNoReader`; the flush tick calls the factory and replaces the installed
source by the buffer the factory returns. -/
theorem factory_called_with_source_installed :
    (writerStart ((New (some sentinelSource) (some fun _ => some (.buffer [66]))).connect 0)
      0).Container.Reader ≠ none ∧
    (writer ((New (some sentinelSource) (some fun _ => some (.buffer [66]))).connect 0) 0
      [.flush .ok]).factoryCalls = 1 ∧
    (writer ((New (some sentinelSource) (some fun _ => some (.buffer [66]))).connect 0) 0
      [.flush .ok]).Container.Reader = some (.buffer [66]) := by
  decide

/-- C9, amended: a flush tick of a running writer calls `handleAddReader`, or panics for its
absence, only if `readData` returned the value `ErrNoReader`, that is only if
`Container.Reader` is nil at the start of the tick or the drain of the installed source
itself failed with `ErrNoReader`; and when `readData` returns any other error for an
installed source, the factory is not called, the loop does not panic, and the installed
source stays in place (as it was, or advanced by the drain). -/
theorem factory_called_only_on_ErrNoReader (s : State) (env : FlushEnv)
    (hrun : s.status = .running) :
    (((writerStep s (.flush env)).factoryCalls ≠ s.factoryCalls ∨
        (writerStep s (.flush env)).status = .panicNoFactory) →
      s.Container.Reader = none ∨
        ∃ src, s.Container.Reader = some src ∧
          (ioCopy src env.write).err = some .ErrNoReader) ∧
    (∀ src e, s.Container.Reader = some src → drainErr env s = some (some e) →
      e ≠ .ErrNoReader →
      (writerStep s (.flush env)).factoryCalls = s.factoryCalls ∧
      (writerStep s (.flush env)).status ≠ .panicNoFactory ∧
      ((writerStep s (.flush env)).Container.Reader = some src ∨
       (writerStep s (.flush env)).Container.Reader
         = some (ioCopy src env.write).reader)) := by
  have hstep : writerStep s (.flush env) = flushTick env s := by simp [writerStep, hrun]
  constructor
  · intro hcall
    cases hd : drainErr env s with
    | none =>
      exfalso
      have hr : readData s.Container.Reader s.Container.Conn env = none := by
        unfold drainErr at hd
        cases hr : readData s.Container.Reader s.Container.Conn env with
        | none => rfl
        | some rd => simp [hr] at hd
      rw [hstep] at hcall
      simp [flushTick, hr, deferred] at hcall
    | some o =>
      cases o with
      | none =>
        exfalso
        obtain ⟨src, conn, -, -, hs⟩ := flush_of_drain_ok hrun hd
        rw [hs] at hcall
        simp [hrun] at hcall
      | some e =>
        by_cases hne : e = .ErrNoReader
        · subst hne
          obtain ⟨rd, hrd, herr⟩ := readData_of_drainErr hd
          exact readData_ErrNoReader hrd herr
        · exfalso
          obtain ⟨-, -, hf, -, -, hs⟩ := flush_of_drain_error hrun hd hne
          rcases hcall with hc | hc
          · exact hc hf
          · rw [hs] at hc
            split at hc <;> cases hc
  · intro src e hsrc hd hne
    obtain ⟨-, -, hf, -, -, hs⟩ := flush_of_drain_error hrun hd hne
    refine ⟨hf, ?_, ?_⟩
    · rw [hs]; split <;> simp
    · obtain ⟨rd, hrd, herr⟩ := readData_of_drainErr hd
      have hreader : (writerStep s (.flush env)).Container.Reader = rd.reader := by
        rw [hstep, flushTick_of_err hrd herr hne]
        simp only [sendErrString]
        repeat' split
        all_goals rfl
      rw [hreader]
      rw [hsrc] at hrd
      exact readData_reader hrd

/-- C9, amended, at a source failing with an error that only has the text of `ErrNoReader`:
the factory is not called. -/
theorem factory_called_only_on_ErrNoReader_witness :
    (writer ((New (some sameTextSource) (some fun _ => some (.buffer [66]))).connect 0) 0
      [.flush .ok]).factoryCalls = 0 :=
  ((factory_called_only_on_ErrNoReader
    (writerStart ((New (some sameTextSource) (some fun _ => some (.buffer [66]))).connect 0) 0)
    .ok rfl).2 sameTextSource (.other noReaderText) rfl (by decide) (by decide)).1

/-- C10: a ping tick of a running `writer` makes exactly one call
`ws.WriteMessage(PingMessage, [])` on the connection the writer was started for; when the
write fails the loop returns and `ws` is closed, when it succeeds the loop keeps running;
in both cases `lastError` and the `Container` (reader, connection, factory) are unchanged
and the factory is not called. -/
theorem ping_tick_writes_one_ping (s : State) (result : Option Bytes)
    (hrun : s.status = .running) :
    (writerStep s (.ping result)).trace
      = s.trace ++ .writeMessage s.ws .PingMessage [] result ::
          (if result = none then [] else [.close s.ws]) ∧
    (result ≠ none → (writerStep s (.ping result)).status = .returned) ∧
    (result = none → (writerStep s (.ping result)).status = .running) ∧
    (writerStep s (.ping result)).lastError = s.lastError ∧
    (writerStep s (.ping result)).Container = s.Container ∧
    (writerStep s (.ping result)).ws = s.ws ∧
    (writerStep s (.ping result)).factoryCalls = s.factoryCalls := by
  cases result with
  | none => simp [writerStep, hrun, pingTick]
  | some text => simp [writerStep, hrun, pingTick, deferred]

/-- C10, at a writer that reported the error `"x"` before, with the ping failing. -/
theorem ping_tick_writes_one_ping_witness :
    (⟨(New (some (.buffer [65])) none).connect 3, 3, [120], .running, [], 0⟩ : State).status
      = .running ∧
    (writerStep ⟨(New (some (.buffer [65])) none).connect 3, 3, [120], .running, [], 0⟩
      (.ping (some [116]))).trace
      = [.writeMessage 3 .PingMessage [] (some [116]), .close 3] :=
  ⟨rfl, (ping_tick_writes_one_ping
    ⟨(New (some (.buffer [65])) none).connect 3, 3, [120], .running, [], 0⟩
    (some [116]) rfl).1⟩

end WebConsole
